import Mathlib

/-!
Verification of the pl-lens accessor/transform algebra (plausiblelabs/lens-rs).

Shallow embedding notes:
  * `Vec<T>` is modeled as `List T`; `u64` path-element ids as `Nat` (ids are only
    constructed from field/collection indices and compared, never arithmetic on them);
    `i32`/`i16` field values as `Int` (no claim exercises overflow).
  * A Rust panic (out-of-bounds `Vec` indexing in `VecLens::mutate`, `Option::unwrap`
    on `None` in `VecLens::get_ref`/`get_mut_ref`) is modeled as
    `Except.error LensError.panicked`; all fallible operations return `Except`.  The
    source never constructs a recoverable error value: `panicked` marks exactly the
    points where the running code would panic, so theorems can state where the code
    fails without asserting anything about how the failure is delivered.
  * A Rust mutable reference `&mut T` produced by `get_mut_ref` is modeled functionally
    as the pair of the current focused value and a write-back function `T → S` that
    rebuilds the whole source with a new focused value, which is exactly how
    `ComposedLens::mutate` consumes it (`rhs.mutate(lhs.get_mut_ref(source), target)`).
-/

namespace PlLens

/-- The embedding's failure marker.  The only failure mode anywhere in the source
is a Rust panic on out-of-bounds indexed access (`Option::unwrap` on `None`,
out-of-bounds `Vec` index assignment); the source defines no recoverable error
type, so this constructor reifies the panic itself. -/
inductive LensError where
  | panicked
deriving DecidableEq

/-- An element in a `LensPath` (src/path.rs `LensPathElement`, a wrapped `u64` id). -/
structure LensPathElement where
  id : Nat
deriving DecidableEq

/-- Describes a lens relative to a source data structure (src/path.rs `LensPath`). -/
structure LensPath where
  elements : List LensPathElement
deriving DecidableEq

/-- The `LensPath::empty` constructor: no elements. -/
def LensPath.empty : LensPath := ⟨[]⟩

/-- The `LensPath::new` constructor: a single element. -/
def LensPath.new (id : Nat) : LensPath := ⟨[⟨id⟩]⟩

/-- The `LensPath::from_index` constructor: a single index element. -/
def LensPath.from_index (index : Nat) : LensPath := ⟨[⟨index⟩]⟩

/-- The `LensPath::from_pair` constructor: two elements. -/
def LensPath.from_pair (id0 id1 : Nat) : LensPath := ⟨[⟨id0⟩, ⟨id1⟩]⟩

/-- The `LensPath::from_vec` constructor: one element per input id, in order. -/
def LensPath.from_vec (ids : List Nat) : LensPath := ⟨ids.map fun id => ⟨id⟩⟩

/-- The `LensPath::concat` constructor: left path's elements followed by the right
path's elements (`lhs.elements.extend(&rhs.elements)`). -/
def LensPath.concat (lhs rhs : LensPath) : LensPath := ⟨lhs.elements ++ rhs.elements⟩

/-- A lens with reference access: models the Rust traits `Lens` (with `path` and
`mutate`) together with `RefLens` (`get_ref`, `get_mut_ref`).  Every lens the claims
quantify over (derived struct-field lenses, `VecLens`, `ComposedLens`) implements
both traits, so one structure carries all four operations. -/
structure RefLens (S T : Type) where
  path : LensPath
  mutate : S → T → Except LensError S
  get_ref : S → Except LensError T
  get_mut_ref : S → Except LensError (T × (T → S))

/-- Default method `Lens::set`: move the source in, `mutate` it, return it. -/
def RefLens.set {S T : Type} (l : RefLens S T) (source : S) (target : T) :
    Except LensError S :=
  l.mutate source target

/-- Free function `mutate_with_fn`: apply `f` to `get_ref(source)` and `mutate`
with the result. -/
def mutate_with_fn {S T : Type} (l : RefLens S T) (source : S) (f : T → T) :
    Except LensError S :=
  (l.get_ref source).bind fun t => l.mutate source (f t)

/-- Free function `modify`: consume the source, `mutate_with_fn`, return it. -/
def modify {S T : Type} (l : RefLens S T) (source : S) (f : T → T) :
    Except LensError S :=
  mutate_with_fn l source f

/-- The `vec_lens` constructor (`VecLens<T>` impls in src/lens.rs): `mutate` is
`source[index] = target` (panics out of bounds), `get_ref` is
`source.get(index).unwrap()`, `get_mut_ref` is `source.get_mut(index).unwrap()`. -/
def vec_lens (T : Type) (index : Nat) : RefLens (List T) T where
  path := LensPath.new index
  mutate := fun source target =>
    if index < source.length then .ok (source.set index target)
    else .error .panicked
  get_ref := fun source =>
    match source[index]? with
    | some t => .ok t
    | none => .error .panicked
  get_mut_ref := fun source =>
    if h : index < source.length then .ok (source[index], fun t => source.set index t)
    else .error .panicked

/-- The `compose` constructor (`ComposedLens<LHS, RHS>` impls in src/lens.rs):
`path` concatenates, `mutate` goes through `lhs.get_mut_ref` then `rhs.mutate`,
`get_ref` chains the reference reads, `get_mut_ref` chains the mutable borrows
(write-backs compose outward). -/
def compose {S M T : Type} (lhs : RefLens S M) (rhs : RefLens M T) : RefLens S T where
  path := LensPath.concat lhs.path rhs.path
  mutate := fun source target =>
    (lhs.get_mut_ref source).bind fun p =>
      (rhs.mutate p.1 target).bind fun m2 => .ok (p.2 m2)
  get_ref := fun source =>
    (lhs.get_ref source).bind fun m => rhs.get_ref m
  get_mut_ref := fun source =>
    (lhs.get_mut_ref source).bind fun p =>
      (rhs.get_mut_ref p.1).bind fun q => .ok (q.1, fun t2 => p.2 (q.2 t2))

/-- Representative lensed struct (the spec §8 concrete scenario `Struct1`);
`i32`/`i16` fields modeled as `Int`. -/
structure Struct1 where
  int32 : Int
  int16 : Int
deriving DecidableEq

/-- Representative lensed struct (the spec §8 concrete scenario `Struct2`). -/
structure Struct2 where
  int32 : Int
  struct1 : Struct1
deriving DecidableEq

/-- Representative lensed struct (the spec §8 concrete scenario `Struct3`). -/
structure Struct3 where
  int32 : Int
  struct2 : Struct2
deriving DecidableEq

/-- The lens `#[derive(Lenses)]` generates for `Struct1.int32` (field index 0):
`path` is `LensPath::new(0)`, `mutate` assigns the field, `get_ref`/`get_mut_ref`
borrow the field. -/
def Struct1Int32Lens : RefLens Struct1 Int where
  path := LensPath.new 0
  mutate := fun source target => .ok { source with int32 := target }
  get_ref := fun source => .ok source.int32
  get_mut_ref := fun source => .ok (source.int32, fun t => { source with int32 := t })

/-- The derived lens for `Struct1.int16` (field index 1). -/
def Struct1Int16Lens : RefLens Struct1 Int where
  path := LensPath.new 1
  mutate := fun source target => .ok { source with int16 := target }
  get_ref := fun source => .ok source.int16
  get_mut_ref := fun source => .ok (source.int16, fun t => { source with int16 := t })

/-- The derived lens for `Struct2.int32` (field index 0). -/
def Struct2Int32Lens : RefLens Struct2 Int where
  path := LensPath.new 0
  mutate := fun source target => .ok { source with int32 := target }
  get_ref := fun source => .ok source.int32
  get_mut_ref := fun source => .ok (source.int32, fun t => { source with int32 := t })

/-- The derived lens for `Struct2.struct1` (field index 1). -/
def Struct2Struct1Lens : RefLens Struct2 Struct1 where
  path := LensPath.new 1
  mutate := fun source target => .ok { source with struct1 := target }
  get_ref := fun source => .ok source.struct1
  get_mut_ref := fun source => .ok (source.struct1, fun t => { source with struct1 := t })

/-- The derived lens for `Struct3.int32` (field index 0). -/
def Struct3Int32Lens : RefLens Struct3 Int where
  path := LensPath.new 0
  mutate := fun source target => .ok { source with int32 := target }
  get_ref := fun source => .ok source.int32
  get_mut_ref := fun source => .ok (source.int32, fun t => { source with int32 := t })

/-- The derived lens for `Struct3.struct2` (field index 1). -/
def Struct3Struct2Lens : RefLens Struct3 Struct2 where
  path := LensPath.new 1
  mutate := fun source target => .ok { source with struct2 := target }
  get_ref := fun source => .ok source.struct2
  get_mut_ref := fun source => .ok (source.struct2, fun t => { source with struct2 := t })

/-- The `ValueLens::get` the derive generates for the primitive field `Struct1.int32`:
a clone of the field (`(*source).int32.clone()`), always total. -/
def Struct1Int32Lens.get (source : Struct1) : Int := source.int32

/-- The `ValueLens::get` of `ComposedLens` when the inner lens has a derived
(total) `get`: `rhs.get(lhs.get_ref(source))`; fails if the outer reference
read fails. -/
def composed_get {S M T : Type} (lhs : RefLens S M) (rhs_get : M → T) (source : S) :
    Except LensError T :=
  (lhs.get_ref source).bind fun m => .ok (rhs_get m)

/-- The `Transform` trait (src/transform.rs): one operation `apply` from `Input`
to `Output`; a Rust panic inside `apply` is the `Except.error` case. -/
structure Transform (I O : Type) where
  apply : I → Except LensError O

/-- The `composed_tx` constructor (`ComposedTransform::apply` is
`rhs.apply(lhs.apply(input))`, a panic in `lhs` propagating). -/
def composed_tx {I M O : Type} (lhs : Transform I M) (rhs : Transform M O) :
    Transform I O where
  apply := fun input => (lhs.apply input).bind fun mid => rhs.apply mid

/-- The `identity_tx` constructor: passes the input through unchanged. -/
def identity_tx (X : Type) : Transform X X where
  apply := fun input => .ok input

/-- The `fn_tx` constructor: lifts a pure function into a transform. -/
def fn_tx {X Y : Type} (f : X → Y) : Transform X Y where
  apply := fun input => .ok (f input)

/-- The `set_tx` constructor (`LensSetTransform::apply`): compute
`func(&input)` on the pre-mutation source, then `lens.set(input, new_value)`. -/
def set_tx {S T : Type} (l : RefLens S T) (func : S → T) : Transform S S where
  apply := fun input => l.set input (func input)

/-- The `mod_tx` constructor (`LensModifyTransform::apply`): read the current
target by reference, apply `func`, set the result. -/
def mod_tx {S T : Type} (l : RefLens S T) (func : T → T) : Transform S S where
  apply := fun input => (l.get_ref input).bind fun t => l.set input (func t)

/-- The `increment_tx` constructor (`LensIncrementTransform::apply`):
`*lens.get_ref(&input) + one()`, then set. -/
def increment_tx {S T : Type} [Add T] [One T] (l : RefLens S T) : Transform S S where
  apply := fun input => (l.get_ref input).bind fun t => l.set input (t + One.one)

/-- The `decrement_tx` constructor (`LensDecrementTransform::apply`):
`*lens.get_ref(&input) - one()`, then set. -/
def decrement_tx {S T : Type} [Sub T] [One T] (l : RefLens S T) : Transform S S where
  apply := fun input => (l.get_ref input).bind fun t => l.set input (t - One.one)

/-- The class of lenses the claims quantify over: the struct-field lenses the
derive generates (instantiated at the spec's representative structs), `vec_lens`
at any index and element type, and anything `compose` builds from those. -/
inductive GeneratedLens : {S T : Type} → RefLens S T → Prop where
  | s1int32 : GeneratedLens Struct1Int32Lens
  | s1int16 : GeneratedLens Struct1Int16Lens
  | s2int32 : GeneratedLens Struct2Int32Lens
  | s2struct1 : GeneratedLens Struct2Struct1Lens
  | s3int32 : GeneratedLens Struct3Int32Lens
  | s3struct2 : GeneratedLens Struct3Struct2Lens
  | vec : ∀ (T : Type) (index : Nat), GeneratedLens (vec_lens T index)
  | comp : ∀ {S M T : Type} {lhs : RefLens S M} {rhs : RefLens M T},
      GeneratedLens lhs → GeneratedLens rhs → GeneratedLens (compose lhs rhs)

/-- The composed accessor for `struct2.struct1.int32` of the spec's concrete
scenario: the expansion of `lens!(Struct3.struct2.struct1.int32)`, which
`compose_lens!` right-associates as
`compose(Struct3Struct2Lens, compose(Struct2Struct1Lens, Struct1Int32Lens))`. -/
def Struct3Struct2Struct1Int32Lens : RefLens Struct3 Int :=
  compose Struct3Struct2Lens (compose Struct2Struct1Lens Struct1Int32Lens)

/-- Inversion for `Except.bind` succeeding. -/
theorem except_bind_ok {A B : Type} {x : Except LensError A}
    {f : A → Except LensError B} {b : B} :
    x.bind f = .ok b ↔ ∃ a, x = .ok a ∧ f a = .ok b := by
  cases x <;> simp [Except.bind]

/-- Inversion for `Except.bind` failing. -/
theorem except_bind_error {A B : Type} {x : Except LensError A}
    {f : A → Except LensError B} {e : LensError} :
    x.bind f = .error e ↔ x = .error e ∨ ∃ a, x = .ok a ∧ f a = .error e := by
  cases x <;> simp [Except.bind]

/-- Writing a list entry back to its current value is the identity. -/
theorem list_set_self {A : Type} (l : List A) (i : Nat) (h : i < l.length) :
    l.set i l[i] = l := by
  induction l generalizing i with
  | nil => simp at h
  | cons a t ih =>
    cases i with
    | zero => simp
    | succ n =>
      simp only [List.set, List.getElem_cons_succ, List.cons.injEq, true_and]
      exact ih n (by simpa using h)

/-- Coherence laws relating the four lens operations.  Each holds for every lens
the claims quantify over and is preserved by `compose`; the laws about
`get_mut_ref` express that the modeled `&mut` borrow reads and writes the same
field that `mutate`/`get_ref` touch. -/
structure Lawful {S T : Type} (l : RefLens S T) : Prop where
  mutate_get_ref : ∀ s t s', l.mutate s t = .ok s' → l.get_ref s' = .ok t
  mutate_mutate : ∀ s t s', l.mutate s t = .ok s' → l.mutate s' t = .ok s'
  get_ref_mutate : ∀ s t, l.get_ref s = .ok t → l.mutate s t = .ok s
  mut_ref_get_ref : ∀ s m wb, l.get_mut_ref s = .ok (m, wb) → l.get_ref s = .ok m
  mutate_eq_wb : ∀ s m wb t, l.get_mut_ref s = .ok (m, wb) → l.mutate s t = .ok (wb t)
  wb_self : ∀ s m wb, l.get_mut_ref s = .ok (m, wb) → wb m = s
  wb_stable : ∀ s m wb m2, l.get_mut_ref s = .ok (m, wb) →
    l.get_mut_ref (wb m2) = .ok (m2, wb)
  mut_ref_of_get_ref : ∀ s m, l.get_ref s = .ok m →
    ∃ wb, l.get_mut_ref s = .ok (m, wb)

/-- Any lens that reads a fixed field with `get` and writes it with `put`
(the shape of every derive-generated struct-field lens) satisfies the
coherence laws, provided `get`/`put` obey the record-update identities. -/
theorem lawful_of_field {S T : Type} (l : RefLens S T) (get : S → T) (put : S → T → S)
    (hmut : ∀ s t, l.mutate s t = .ok (put s t))
    (hget : ∀ s, l.get_ref s = .ok (get s))
    (hmutref : ∀ s, l.get_mut_ref s = .ok (get s, put s))
    (get_put : ∀ s t, get (put s t) = t)
    (put_get : ∀ s, put s (get s) = s)
    (put_put : ∀ s t t2, put (put s t) t2 = put s t2) : Lawful l := by
  constructor
  case mutate_get_ref =>
    intro s t s2 h
    rw [hmut] at h
    cases h
    rw [hget, get_put]
  case mutate_mutate =>
    intro s t s2 h
    rw [hmut] at h
    cases h
    rw [hmut, put_put]
  case get_ref_mutate =>
    intro s t h
    rw [hget] at h
    cases h
    rw [hmut, put_get]
  case mut_ref_get_ref =>
    intro s m wb h
    rw [hmutref] at h
    cases h
    exact hget s
  case mutate_eq_wb =>
    intro s m wb t h
    rw [hmutref] at h
    cases h
    exact hmut s t
  case wb_self =>
    intro s m wb h
    rw [hmutref] at h
    cases h
    exact put_get s
  case wb_stable =>
    intro s m wb m2 h
    rw [hmutref] at h
    cases h
    rw [hmutref, get_put]
    have h2 : put (put s m2) = put s := funext fun t => put_put s m2 t
    rw [h2]
  case mut_ref_of_get_ref =>
    intro s m h
    rw [hget] at h
    cases h
    exact ⟨put s, hmutref s⟩

/-- The derived lens for `Struct1.int32` satisfies the coherence laws. -/
theorem lawful_Struct1Int32Lens : Lawful Struct1Int32Lens :=
  lawful_of_field Struct1Int32Lens (fun s => s.int32) (fun s t => { s with int32 := t })
    (fun _ _ => rfl) (fun _ => rfl) (fun _ => rfl)
    (fun _ _ => rfl) (fun _ => rfl) (fun _ _ _ => rfl)

/-- The derived lens for `Struct1.int16` satisfies the coherence laws. -/
theorem lawful_Struct1Int16Lens : Lawful Struct1Int16Lens :=
  lawful_of_field Struct1Int16Lens (fun s => s.int16) (fun s t => { s with int16 := t })
    (fun _ _ => rfl) (fun _ => rfl) (fun _ => rfl)
    (fun _ _ => rfl) (fun _ => rfl) (fun _ _ _ => rfl)

/-- The derived lens for `Struct2.int32` satisfies the coherence laws. -/
theorem lawful_Struct2Int32Lens : Lawful Struct2Int32Lens :=
  lawful_of_field Struct2Int32Lens (fun s => s.int32) (fun s t => { s with int32 := t })
    (fun _ _ => rfl) (fun _ => rfl) (fun _ => rfl)
    (fun _ _ => rfl) (fun _ => rfl) (fun _ _ _ => rfl)

/-- The derived lens for `Struct2.struct1` satisfies the coherence laws. -/
theorem lawful_Struct2Struct1Lens : Lawful Struct2Struct1Lens :=
  lawful_of_field Struct2Struct1Lens (fun s => s.struct1) (fun s t => { s with struct1 := t })
    (fun _ _ => rfl) (fun _ => rfl) (fun _ => rfl)
    (fun _ _ => rfl) (fun _ => rfl) (fun _ _ _ => rfl)

/-- The derived lens for `Struct3.int32` satisfies the coherence laws. -/
theorem lawful_Struct3Int32Lens : Lawful Struct3Int32Lens :=
  lawful_of_field Struct3Int32Lens (fun s => s.int32) (fun s t => { s with int32 := t })
    (fun _ _ => rfl) (fun _ => rfl) (fun _ => rfl)
    (fun _ _ => rfl) (fun _ => rfl) (fun _ _ _ => rfl)

/-- The derived lens for `Struct3.struct2` satisfies the coherence laws. -/
theorem lawful_Struct3Struct2Lens : Lawful Struct3Struct2Lens :=
  lawful_of_field Struct3Struct2Lens (fun s => s.struct2) (fun s t => { s with struct2 := t })
    (fun _ _ => rfl) (fun _ => rfl) (fun _ => rfl)
    (fun _ _ => rfl) (fun _ => rfl) (fun _ _ _ => rfl)

/-- The `vec_lens` lens satisfies the coherence laws at every index (in- or
out-of-bounds: out-of-bounds operations all fail, so the laws hold vacuously
there). -/
theorem lawful_vec_lens (T : Type) (index : Nat) : Lawful (vec_lens T index) := by
  constructor
  case mutate_get_ref =>
    intro s t s2 h
    simp only [vec_lens] at h ⊢
    split at h
    next hlt =>
      cases h
      rw [List.getElem?_set_self (by simpa using hlt)]
    next => cases h
  case mutate_mutate =>
    intro s t s2 h
    simp only [vec_lens] at h ⊢
    split at h
    next hlt =>
      cases h
      simp [List.length_set, hlt, List.set_set]
    next => cases h
  case get_ref_mutate =>
    intro s t h
    simp only [vec_lens] at h ⊢
    cases hx : s[index]? with
    | none => simp only [hx] at h; cases h
    | some a =>
      simp only [hx, Except.ok.injEq] at h
      subst h
      obtain ⟨hlt, hget⟩ := List.getElem?_eq_some.mp hx
      rw [if_pos hlt, ← hget, list_set_self s index hlt]
  case mut_ref_get_ref =>
    intro s m wb h
    simp only [vec_lens] at h ⊢
    split at h
    next hlt =>
      simp only [Except.ok.injEq, Prod.mk.injEq] at h
      obtain ⟨h1, h2⟩ := h
      subst h1
      rw [List.getElem?_eq_getElem hlt]
    next => cases h
  case mutate_eq_wb =>
    intro s m wb t h
    simp only [vec_lens] at h ⊢
    split at h
    next hlt =>
      simp only [Except.ok.injEq, Prod.mk.injEq] at h
      obtain ⟨h1, h2⟩ := h
      subst h2
      rw [if_pos hlt]
    next => cases h
  case wb_self =>
    intro s m wb h
    simp only [vec_lens] at h
    split at h
    next hlt =>
      simp only [Except.ok.injEq, Prod.mk.injEq] at h
      obtain ⟨h1, h2⟩ := h
      subst h1
      subst h2
      exact list_set_self s index hlt
    next => cases h
  case wb_stable =>
    intro s m wb m2 h
    simp only [vec_lens] at h ⊢
    split at h
    next hlt =>
      simp only [Except.ok.injEq, Prod.mk.injEq] at h
      obtain ⟨h1, h2⟩ := h
      subst h2
      rw [dif_pos (show index < (s.set index m2).length by simpa [List.length_set] using hlt)]
      simp only [Except.ok.injEq, Prod.mk.injEq]
      exact ⟨List.getElem_set_self _, funext fun t => List.set_set m2 t s index⟩
    next => cases h
  case mut_ref_of_get_ref =>
    intro s m h
    simp only [vec_lens] at h ⊢
    cases hx : s[index]? with
    | none => simp only [hx] at h; cases h
    | some a =>
      simp only [hx, Except.ok.injEq] at h
      subst h
      obtain ⟨hlt, hget⟩ := List.getElem?_eq_some.mp hx
      refine ⟨fun t => s.set index t, ?_⟩
      rw [dif_pos hlt, hget]

/-- Composition preserves the coherence laws: if both participants are lawful,
`compose lhs rhs` is lawful. -/
theorem lawful_compose {S M T : Type} {lhs : RefLens S M} {rhs : RefLens M T}
    (hl : Lawful lhs) (hr : Lawful rhs) : Lawful (compose lhs rhs) := by
  constructor
  case mutate_get_ref =>
    intro s t s2 h
    simp only [compose] at h ⊢
    rw [except_bind_ok] at h
    obtain ⟨p, hp, h⟩ := h
    rw [except_bind_ok] at h
    obtain ⟨m2, hm2, h⟩ := h
    cases h
    rw [hl.mut_ref_get_ref _ _ _ (hl.wb_stable s p.1 p.2 m2 hp), Except.bind,
      hr.mutate_get_ref p.1 t m2 hm2]
  case mutate_mutate =>
    intro s t s2 h
    simp only [compose] at h ⊢
    rw [except_bind_ok] at h
    obtain ⟨p, hp, h⟩ := h
    rw [except_bind_ok] at h
    obtain ⟨m2, hm2, h⟩ := h
    cases h
    rw [hl.wb_stable s p.1 p.2 m2 hp, Except.bind, hr.mutate_mutate p.1 t m2 hm2,
      Except.bind]
  case get_ref_mutate =>
    intro s t h
    simp only [compose] at h ⊢
    rw [except_bind_ok] at h
    obtain ⟨m, hm, hrg⟩ := h
    obtain ⟨wb, hmr⟩ := hl.mut_ref_of_get_ref s m hm
    rw [hmr, Except.bind, hr.get_ref_mutate m t hrg, Except.bind]
    exact congrArg Except.ok (hl.wb_self s m wb hmr)
  case mut_ref_get_ref =>
    intro s m wb h
    simp only [compose] at h ⊢
    rw [except_bind_ok] at h
    obtain ⟨p, hp, h⟩ := h
    rw [except_bind_ok] at h
    obtain ⟨q, hq, h⟩ := h
    cases h
    rw [hl.mut_ref_get_ref s p.1 p.2 hp, Except.bind, hr.mut_ref_get_ref p.1 q.1 q.2 hq]
  case mutate_eq_wb =>
    intro s m wb t h
    simp only [compose] at h ⊢
    rw [except_bind_ok] at h
    obtain ⟨p, hp, h⟩ := h
    rw [except_bind_ok] at h
    obtain ⟨q, hq, h⟩ := h
    cases h
    rw [hp, Except.bind, hr.mutate_eq_wb p.1 q.1 q.2 t hq, Except.bind]
  case wb_self =>
    intro s m wb h
    simp only [compose] at h
    rw [except_bind_ok] at h
    obtain ⟨p, hp, h⟩ := h
    rw [except_bind_ok] at h
    obtain ⟨q, hq, h⟩ := h
    cases h
    show p.2 (q.2 q.1) = s
    rw [hr.wb_self p.1 q.1 q.2 hq, hl.wb_self s p.1 p.2 hp]
  case wb_stable =>
    intro s m wb m2 h
    simp only [compose] at h ⊢
    rw [except_bind_ok] at h
    obtain ⟨p, hp, h⟩ := h
    rw [except_bind_ok] at h
    obtain ⟨q, hq, h⟩ := h
    cases h
    show (lhs.get_mut_ref (p.2 (q.2 m2))).bind _ = _
    rw [hl.wb_stable s p.1 p.2 (q.2 m2) hp, Except.bind,
      hr.wb_stable p.1 q.1 q.2 m2 hq, Except.bind]
  case mut_ref_of_get_ref =>
    intro s m h
    simp only [compose] at h ⊢
    rw [except_bind_ok] at h
    obtain ⟨m0, hm0, hrg⟩ := h
    obtain ⟨wb, hp⟩ := hl.mut_ref_of_get_ref s m0 hm0
    obtain ⟨wb2, hq⟩ := hr.mut_ref_of_get_ref m0 m hrg
    refine ⟨fun t2 => wb (wb2 t2), ?_⟩
    rw [hp, Except.bind, hq, Except.bind]

/-- Every lens in the claims' class (derived struct-field lenses, `vec_lens`,
and their compositions) satisfies the coherence laws. -/
theorem lawful_generated {S T : Type} {l : RefLens S T} (h : GeneratedLens l) :
    Lawful l := by
  induction h with
  | s1int32 => exact lawful_Struct1Int32Lens
  | s1int16 => exact lawful_Struct1Int16Lens
  | s2int32 => exact lawful_Struct2Int32Lens
  | s2struct1 => exact lawful_Struct2Struct1Lens
  | s3int32 => exact lawful_Struct3Int32Lens
  | s3struct2 => exact lawful_Struct3Struct2Lens
  | vec T index => exact lawful_vec_lens T index
  | comp _ _ ihl ihr => exact lawful_compose ihl ihr

/-- C1: get/set round-trip.  For every lens of the claims' class (derived
struct-field lens, `vec_lens`, or a composition of such), whenever
`set(s, t)` returns a structure, reading the target of that structure back —
by reference via `get_ref`, or by value via the derived `ValueLens::get` or the
composed `ValueLens::get` — yields exactly `t`. -/
theorem getset_roundtrip :
    (∀ {S T : Type} (l : RefLens S T) (s : S) (t : T) (s2 : S),
      GeneratedLens l → l.set s t = .ok s2 → l.get_ref s2 = .ok t)
    ∧ (∀ (s : Struct1) (t : Int) (s2 : Struct1),
      Struct1Int32Lens.set s t = .ok s2 → Struct1Int32Lens.get s2 = t)
    ∧ (∀ (s : Struct3) (t : Int) (s2 : Struct3),
      Struct3Struct2Struct1Int32Lens.set s t = .ok s2 →
      composed_get (compose Struct3Struct2Lens Struct2Struct1Lens)
        Struct1Int32Lens.get s2 = .ok t) := by
  refine ⟨?_, ?_, ?_⟩
  · intro S T l s t s2 hgen h
    exact (lawful_generated hgen).mutate_get_ref s t s2 h
  · intro s t s2 h
    injection h with h
    subst h
    rfl
  · intro s t s2 h
    injection h with h
    subst h
    rfl

/-- Witness for C1 at the spec's concrete scenario: setting `int32` to 133 in
`Struct1 { int32: 132, int16: 116 }` makes `get_ref` read 133. -/
theorem getset_roundtrip_witness :
    Struct1Int32Lens.get_ref ⟨133, 116⟩ = .ok 133 :=
  getset_roundtrip.1 Struct1Int32Lens ⟨132, 116⟩ 133 ⟨133, 116⟩ GeneratedLens.s1int32 rfl

/-- C2, evaluated at the claim's own instance: `vec_lens` with index 5 against a
3-element collection.  `get_ref` (`source.get(5).unwrap()`), `get_mut_ref`
(`source.get_mut(5).unwrap()`) and `mutate` (`source[5] = target`) each reach
the out-of-bounds panic — there is no silent no-op and no default value, but
also no `IndexOutOfRange` error: the source defines no such type, and the
failure the claim says never happens (a panic/crash-equivalent) is exactly
what the code does here. -/
theorem oob_index_panics :
    (vec_lens Nat 5).get_ref [10, 11, 12] = .error .panicked
    ∧ (vec_lens Nat 5).get_mut_ref [10, 11, 12] = .error .panicked
    ∧ (vec_lens Nat 5).mutate [10, 11, 12] 99 = .error .panicked :=
  ⟨rfl, rfl, rfl⟩

/-- C3: unrelated-field isolation.  Setting through any derived struct-field
lens leaves every sibling field's observed value unchanged, and setting through
the composed `struct2.struct1.int32` accessor leaves all fields outside the
accessed path unchanged; the spec's concrete scenario reads 132, then 133 after
`set(..., 133)` with `int16` still 116, then 134 after `modify(..., +1)`. -/
theorem unrelated_field_isolation :
    (∀ (s : Struct1) (v : Int) (s2 : Struct1),
      Struct1Int32Lens.set s v = .ok s2 → s2.int16 = s.int16)
    ∧ (∀ (s : Struct1) (v : Int) (s2 : Struct1),
      Struct1Int16Lens.set s v = .ok s2 → s2.int32 = s.int32)
    ∧ (∀ (s : Struct2) (v : Int) (s2 : Struct2),
      Struct2Int32Lens.set s v = .ok s2 → s2.struct1 = s.struct1)
    ∧ (∀ (s : Struct2) (v : Struct1) (s2 : Struct2),
      Struct2Struct1Lens.set s v = .ok s2 → s2.int32 = s.int32)
    ∧ (∀ (s : Struct3) (v : Int) (s2 : Struct3),
      Struct3Int32Lens.set s v = .ok s2 → s2.struct2 = s.struct2)
    ∧ (∀ (s : Struct3) (v : Struct2) (s2 : Struct3),
      Struct3Struct2Lens.set s v = .ok s2 → s2.int32 = s.int32)
    ∧ (∀ (s : Struct3) (v : Int) (s2 : Struct3),
      Struct3Struct2Struct1Int32Lens.set s v = .ok s2 →
      s2.int32 = s.int32 ∧ s2.struct2.int32 = s.struct2.int32
        ∧ s2.struct2.struct1.int16 = s.struct2.struct1.int16)
    ∧ Struct3Struct2Struct1Int32Lens.get_ref ⟨332, ⟨232, ⟨132, 116⟩⟩⟩ = .ok 132
    ∧ Struct3Struct2Struct1Int32Lens.set ⟨332, ⟨232, ⟨132, 116⟩⟩⟩ 133
        = .ok ⟨332, ⟨232, ⟨133, 116⟩⟩⟩
    ∧ modify Struct3Struct2Struct1Int32Lens ⟨332, ⟨232, ⟨133, 116⟩⟩⟩ (fun a => a + 1)
        = .ok ⟨332, ⟨232, ⟨134, 116⟩⟩⟩ := by
  refine ⟨?_, ?_, ?_, ?_, ?_, ?_, ?_, rfl, rfl, rfl⟩ <;>
    (intro s v s2 h; injection h with h; subst h)
  any_goals rfl
  exact ⟨rfl, rfl, rfl⟩

/-- Witness for C3: setting the scenario's nested `int32` to 133 leaves the
out-of-path fields at their old values. -/
theorem unrelated_field_isolation_witness :
    (⟨332, ⟨232, ⟨133, 116⟩⟩⟩ : Struct3).int32 = (⟨332, ⟨232, ⟨132, 116⟩⟩⟩ : Struct3).int32
    ∧ (⟨332, ⟨232, ⟨133, 116⟩⟩⟩ : Struct3).struct2.int32
        = (⟨332, ⟨232, ⟨132, 116⟩⟩⟩ : Struct3).struct2.int32
    ∧ (⟨332, ⟨232, ⟨133, 116⟩⟩⟩ : Struct3).struct2.struct1.int16
        = (⟨332, ⟨232, ⟨132, 116⟩⟩⟩ : Struct3).struct2.struct1.int16 :=
  unrelated_field_isolation.2.2.2.2.2.2.1 ⟨332, ⟨232, ⟨132, 116⟩⟩⟩ 133
    ⟨332, ⟨232, ⟨133, 116⟩⟩⟩ rfl

/-- C4: composition path correctness.  The composed lens's `path()` is
`LensPath::concat` of the two paths, and in particular composing an outer lens
with path `[1]` (`Struct2Struct1Lens`) with an inner lens with path `[0]`
(`Struct1Int32Lens`) yields the path `[1, 0]`. -/
theorem composition_path_correctness :
    (∀ {S M T : Type} (lhs : RefLens S M) (rhs : RefLens M T),
      (compose lhs rhs).path = LensPath.concat lhs.path rhs.path)
    ∧ (compose Struct2Struct1Lens Struct1Int32Lens).path = LensPath.from_pair 1 0 :=
  ⟨fun _ _ => rfl, rfl⟩

/-- C5: path concatenation yields the left path's elements followed by the
right path's elements, path equality is element-wise, and concatenation is
associative. -/
theorem path_concat_elements_assoc :
    (∀ a b : LensPath, (LensPath.concat a b).elements = a.elements ++ b.elements)
    ∧ (∀ a b : LensPath, a = b ↔ a.elements = b.elements)
    ∧ (∀ a b c : LensPath,
      LensPath.concat (LensPath.concat a b) c
        = LensPath.concat a (LensPath.concat b c)) := by
  refine ⟨fun a b => rfl, ?_, ?_⟩
  · intro a b
    cases a
    cases b
    simp
  · intro a b c
    simp [LensPath.concat, List.append_assoc]

/-- C6: transform composition is sequential application (the second transform
consumes the first's output, a failure in the first propagating), and
consequently associative. -/
theorem transform_composition_seq_assoc :
    (∀ {I M O : Type} (t1 : Transform I M) (t2 : Transform M O) (x : I),
      (composed_tx t1 t2).apply x = (t1.apply x).bind t2.apply)
    ∧ (∀ {I M2 M3 O : Type} (t1 : Transform I M2) (t2 : Transform M2 M3)
        (t3 : Transform M3 O) (x : I),
      (composed_tx (composed_tx t1 t2) t3).apply x
        = (composed_tx t1 (composed_tx t2 t3)).apply x) := by
  refine ⟨fun t1 t2 x => rfl, ?_⟩
  intro I M2 M3 O t1 t2 t3 x
  simp only [composed_tx]
  cases t1.apply x <;> simp [Except.bind]

/-- C7: the set transform applies its function to the whole source value as it
was before any mutation: `set_tx(l, f).apply(s) = l.set(s, f(s))`. -/
theorem set_tx_premutation_source :
    ∀ {S T : Type} (l : RefLens S T) (f : S → T) (s : S),
      (set_tx l f).apply s = l.set s (f s) :=
  fun _ _ _ => rfl

/-- C8: set idempotence under repetition.  For every lens of the claims' class,
`set(set(s, v), v) == set(s, v)` (sequencing the two sets in the error monad:
if the first set fails, so does the whole left side, matching the right). -/
theorem set_idempotent_repetition :
    ∀ {S T : Type} (l : RefLens S T), GeneratedLens l →
      ∀ (s : S) (v : T), (l.set s v).bind (fun s2 => l.set s2 v) = l.set s v := by
  intro S T l hgen s v
  cases hx : l.set s v with
  | error e => rfl
  | ok s2 => exact (lawful_generated hgen).mutate_mutate s v s2 hx

/-- Witness for C8 on a vec lens: repeating `set [5, 6, 7] @1 := 9` equals
doing it once. -/
theorem set_idempotent_repetition_witness :
    (((vec_lens Nat 1).set [5, 6, 7] 9).bind
      fun s2 => (vec_lens Nat 1).set s2 9) = (vec_lens Nat 1).set [5, 6, 7] 9 :=
  set_idempotent_repetition (vec_lens Nat 1) (GeneratedLens.vec Nat 1) [5, 6, 7] 9

/-- C9: the increment and decrement transforms change the integral target by
exactly one: whenever the current target reads as `t`, `increment_tx` performs
`l.set(s, t + 1)` and `decrement_tx` performs `l.set(s, t - 1)`; concretely,
starting value 42 yields 43 under increment and 41 under decrement. -/
theorem increment_decrement_by_one :
    (∀ {S T : Type} [Add T] [Sub T] [One T] (l : RefLens S T) (s : S) (t : T),
      l.get_ref s = .ok t →
      (increment_tx l).apply s = l.set s (t + One.one)
      ∧ (decrement_tx l).apply s = l.set s (t - One.one))
    ∧ (increment_tx Struct1Int32Lens).apply ⟨42, 116⟩ = .ok ⟨43, 116⟩
    ∧ (decrement_tx Struct1Int32Lens).apply ⟨42, 116⟩ = .ok ⟨41, 116⟩ := by
  refine ⟨?_, rfl, rfl⟩
  intro S T _ _ _ l s t h
  constructor
  · simp only [increment_tx]
    rw [h, Except.bind]
  · simp only [decrement_tx]
    rw [h, Except.bind]

/-- Witness for C9 with target 42 read through the `Struct1.int32` lens. -/
theorem increment_decrement_by_one_witness :
    (increment_tx Struct1Int32Lens).apply ⟨42, 7⟩
        = Struct1Int32Lens.set ⟨42, 7⟩ (42 + One.one)
    ∧ (decrement_tx Struct1Int32Lens).apply ⟨42, 7⟩
        = Struct1Int32Lens.set ⟨42, 7⟩ (42 - One.one) :=
  increment_decrement_by_one.1 Struct1Int32Lens ⟨42, 7⟩ 42 rfl

/-- C10: implicit set-get law.  For every lens of the claims' class, writing
back the value the lens currently reads leaves the structure unchanged:
if `get_ref(s)` reads `t`, then `set(s, t) = s`. -/
theorem set_current_value_noop :
    ∀ {S T : Type} (l : RefLens S T), GeneratedLens l →
      ∀ (s : S) (t : T), l.get_ref s = .ok t → l.set s t = .ok s :=
  fun _ hgen s t h => (lawful_generated hgen).get_ref_mutate s t h

/-- Witness for C10 on an in-bounds vec lens: writing element 1's current
value 6 back into `[5, 6, 7]` returns the list unchanged. -/
theorem set_current_value_noop_witness :
    (vec_lens Nat 1).set [5, 6, 7] 6 = .ok [5, 6, 7] :=
  set_current_value_noop (vec_lens Nat 1) (GeneratedLens.vec Nat 1) [5, 6, 7] 6 rfl

end PlLens
